import Mathlib

/-!
Verification development for the ClipAI browser extension
(sources: background.js, sidebar.js, summarizers.js).

The file shallowly embeds the data model and the operations the spec's
claims are about:

* the summarizer input validation and the per-backend summarize entry
  points (summarizers.js: assertValidInput, PromptApiSummarizer.summarize,
  NativeSummarizer.summarize, T5Summarizer.summarize);
* the backend selection loop (summarizers.js: createSummarizer and the
  summarizers preference list), including the JavaScript distinction
  between a static method isAvailable() and a static getter isAvailable
  (calling the getter's boolean value throws a TypeError);
* the batch-then-reduce summarization orchestration of
  sidebar.js:handleSummarize (dedup by URL, sequential per-item calls
  with caught failures, the post-loop cancellation check, the final
  reduction call), with the outcomes of the external model calls given
  by oracles;
* the two-tier clip storage of background.js (saveToStorage, getClips),
  the sidebar's direct local read (loadClips) and deleteClip with the
  JavaScript findIndex/splice semantics.

Effectful JavaScript is embedded as explicit state passing; promise
rejections are Except values; the external model backends are oracle
functions supplied as parameters.
-/

set_option maxRecDepth 8192

-- #region JavaScript values and the summarizer error taxonomy

/-- A JavaScript value as far as the summarizer input validation looks at
it: a string, a number, or undefined. -/
inductive JSVal
  | str (s : String)
  | num (n : Int)
  | undef
deriving DecidableEq, Repr

/-- The result of the JavaScript typeof operator on a modelled value. -/
def typeofName : JSVal → String
  | .str _ => "string"
  | .num _ => "number"
  | .undef => "undefined"

/-- The string payload of a value already known to be a string. -/
def JSVal.asString : JSVal → String
  | .str s => s
  | .num _ => ""
  | .undef => ""

/-- Errors of the summarizer module, one constructor per throw site:
TypeError for a non-string input, the empty-string input error, the
TypeError raised by invoking a non-function property, the final
no-summarizer error of createSummarizer, the two not-initialized guards,
an AbortError from signal.throwIfAborted, and a backend-reported error. -/
inductive SummErr
  | typeError (msg : String)
  | emptyInput
  | notAFunction
  | noSummarizerAvailable
  | sessionNotInit
  | nativeNotInit
  | aborted
  | backendError (msg : String)
deriving DecidableEq, Repr

/-- summarizers.js assertValidInput: throws TypeError unless the input is
a string, then throws unless the string is non-empty. -/
def assertValidInput (input : JSVal) : Except SummErr Unit :=
  match input with
  | .str s => if s.length == 0 then .error (.emptyInput) else .ok ()
  | v => .error (.typeError ("Input must be a string. Received " ++ typeofName v))

-- #endregion

-- #region Per-backend summarize entry points (up to the backend call)

/-- What a single summarize(input, options) invocation does before the
external model is consulted: either it fails (validation, guard, abort
check) or it reaches the backend with some payload. -/
inductive SummarizeTrace
  | failedBeforeBackend (e : SummErr)
  | backendCall (payload : String)
deriving DecidableEq, Repr

/-- Whether the invocation reached the backend. -/
def SummarizeTrace.isBackendCall : SummarizeTrace → Bool
  | .backendCall _ => true
  | .failedBeforeBackend _ => false

/-- The fixed instruction text PromptApiSummarizer.summarize wraps around
its input before calling session.prompt. -/
def promptPrefixText : String :=
  "Summarize these paragraphs into a single paragraph of no more than five sentences:\n\n"

/-- PromptApiSummarizer.summarize: guard on the session, then
assertValidInput, then the session.prompt call with the wrapped input.
hasSession is whether the private session field is set (create always
passes a real session). -/
def promptApiSummarizeTrace (hasSession : Bool) (input : JSVal) : SummarizeTrace :=
  if hasSession then
    match assertValidInput input with
    | .error e => .failedBeforeBackend e
    | .ok _ => .backendCall (promptPrefixText ++ input.asString)
  else .failedBeforeBackend (.sessionNotInit)

/-- NativeSummarizer.summarize: guard on the wrapped summarizer, then
assertValidInput, then signal.throwIfAborted, then the backend call. -/
def nativeSummarizeTrace (hasSummarizer : Bool) (aborted : Bool) (input : JSVal) :
    SummarizeTrace :=
  if hasSummarizer then
    match assertValidInput input with
    | .error e => .failedBeforeBackend e
    | .ok _ =>
      if aborted then .failedBeforeBackend (.aborted)
      else .backendCall input.asString
  else .failedBeforeBackend (.nativeNotInit)

/-- T5Summarizer.summarize: assertValidInput, then signal.throwIfAborted,
then the t5:summarize runtime message carrying the input. -/
def t5SummarizeTrace (aborted : Bool) (input : JSVal) : SummarizeTrace :=
  match assertValidInput input with
  | .error e => .failedBeforeBackend e
  | .ok _ =>
    if aborted then .failedBeforeBackend (.aborted)
    else .backendCall input.asString

/-- Complete a summarize invocation with the external backend's answer:
a trace that failed early keeps its error, a backend call gets the
oracle's outcome for its payload. -/
def applyOracle (oracle : String → Except SummErr String) :
    SummarizeTrace → Except SummErr String
  | .failedBeforeBackend e => .error e
  | .backendCall p => oracle p

-- #endregion

-- #region Backend selection (summarizers.js createSummarizer)

/-- The created backend instances. -/
inductive Backend
  | t5
  | promptApi
  | native
deriving DecidableEq, Repr

/-- How a summarizer class exposes its availability probe. The current
classes declare either a static async method isAvailable() or a static
getter isAvailable; createSummarizer invokes summarizerClass.isAvailable()
as a call, so a getter's boolean value gets invoked as a function, which
throws a TypeError in JavaScript. -/
inductive AvailProbe
  | method (b : Bool)
  | getter (b : Bool)
deriving DecidableEq, Repr

/-- Evaluating the expression summarizerClass.isAvailable() for a class. -/
def probeCall : AvailProbe → Except SummErr Bool
  | .method b => .ok b
  | .getter _ => .error (.notAFunction)

/-- Decidable equality of Except values over decidable components. -/
instance exceptDecEq {ε α : Type} [DecidableEq ε] [DecidableEq α] :
    DecidableEq (Except ε α) := fun x y =>
  match x, y with
  | .ok a, .ok b =>
    if h : a = b then isTrue (by rw [h]) else isFalse (by simp [h])
  | .error a, .error b =>
    if h : a = b then isTrue (by rw [h]) else isFalse (by simp [h])
  | .ok _, .error _ => isFalse (by simp)
  | .error _, .ok _ => isFalse (by simp)

/-- One entry of the summarizers preference list: its availability probe
and the outcome of its static create(). -/
structure SummarizerClass where
  availProbe : AvailProbe
  createOutcome : Except SummErr Backend
deriving DecidableEq, Repr

/-- summarizers.js createSummarizer: iterate the preference list; the
availability probe is called outside the try block, so a throw there
propagates; when the probe answers true, create() is awaited inside the
try block, a creation failure is logged and the loop continues; an
exhausted list throws the no-summarizer error. -/
def createSummarizer : List SummarizerClass → Except SummErr Backend
  | [] => .error (.noSummarizerAvailable)
  | c :: rest =>
    match probeCall c.availProbe with
    | .error e => .error e
    | .ok false => createSummarizer rest
    | .ok true =>
      match c.createOutcome with
      | .ok b => .ok b
      | .error _ => createSummarizer rest

/-- The shipped preference list: const summarizers = [T5Summarizer] (the
other two classes are commented out). T5Summarizer declares isAvailable
as a static getter returning typeof pipeline === 'function' (modelled by
pipelineIsFn); t5Create is the outcome T5Summarizer.create would have. -/
def shippedSummarizers (pipelineIsFn : Bool) (t5Create : Except SummErr Backend) :
    List SummarizerClass :=
  [⟨AvailProbe.getter pipelineIsFn, t5Create⟩]

-- #endregion

-- #region destroy() surface of the backend classes

/-- Which classes of summarizers.js declare a destroy() method:
PromptApiSummarizer and NativeSummarizer do, T5Summarizer does not. -/
def classHasDestroy : Backend → Bool
  | .promptApi => true
  | .native => true
  | .t5 => false

/-- What a destroy() call did: nothing (the guard saw no underlying
session/summarizer) or the underlying handle's own destroy. -/
inductive DestroyAction
  | skipped
  | innerDestroy
deriving DecidableEq, Repr

/-- Evaluating summarizer.destroy() on an instance of a class:
a class without the method makes the property access yield undefined and
the call throw a TypeError; the declared methods guard on the private
field and call the underlying destroy only when it is set. -/
def callDestroy (b : Backend) (hasUnderlying : Bool) : Except SummErr DestroyAction :=
  if classHasDestroy b then
    .ok (if hasUnderlying then .innerDestroy else .skipped)
  else .error (.notAFunction)

-- #endregion

-- #region Clip data model and dedup (sidebar.js handleSummarize)

/-- The metadata of a clip, restricted to the field the verified claims
depend on (the source record also carries title, keywords, image and the
extracted main-body text). -/
structure ClipMeta where
  url : String
deriving DecidableEq, Repr

/-- A persisted clip, restricted to the fields the verified claims depend
on: the metadata URL used for dedup, the ISO timestamp used as the
deletion key, and the content text (it only feeds the serialized size). -/
structure Clip where
  metadata : ClipMeta
  timestamp : String
  text : String
deriving DecidableEq, Repr

/-- The dedup filter of handleSummarize: Array.prototype.filter over the
clips with a mutable Set of already-seen URLs (seen holds the Set's
contents; the callback keeps a clip whose URL the Set lacks and adds the
URL). -/
def dedupFilter : List String → List Clip → List Clip
  | _, [] => []
  | seen, c :: rest =>
    if seen.contains c.metadata.url then dedupFilter seen rest
    else c :: dedupFilter (c.metadata.url :: seen) rest

/-- Deduplicating a clip list by metadata URL, as handleSummarize does it
(the filter starts from an empty Set). -/
def dedupeByUrl (clips : List Clip) : List Clip :=
  dedupFilter [] clips

/-- The claim's own description of dedup, written from its words: keep
the first occurrence where it stands and drop every later clip with the
same URL, then continue on what is left. -/
def specDedup : List Clip → List Clip
  | [] => []
  | c :: rest =>
    c :: specDedup (rest.filter (fun d => d.metadata.url != c.metadata.url))
termination_by l => l.length
decreasing_by
  simp only [List.length_cons]
  exact Nat.lt_succ_of_le (List.length_filter_le _ _)

-- #endregion

-- #region Batch summarization orchestration (sidebar.js handleSummarize)

/-- The length hint of the per-item calls: 'short' when more than two
clips survived dedup, else 'medium' (T5Summarizer's default). -/
inductive LenHint
  | short
  | medium
  | long
deriving DecidableEq, Repr

/-- sidebar.js: const summaryLength = clipsToSummarize.length > 2 ?
'short' : 'medium'. -/
def summaryLength (n : Nat) : LenHint :=
  if 2 < n then LenHint.short else LenHint.medium

/-- What one iteration of the per-item loop left behind: the summarize
call is issued unconditionally (called), the backend is reached only when
validation and the abort check pass (backendReached), and the caught
outcome lands in the summaries array as a string or undefined (summary). -/
structure ItemTrace where
  called : Bool
  backendReached : Bool
  summary : Option String
deriving DecidableEq, Repr

/-- The environment of one handleSummarize batch: the external backend's
answer per item index and payload, its answer for the final reduction
call, and when the session's single AbortSignal fires (abortBefore = some
k: the signal is aborted from just before loop iteration k on, and in
particular at the post-loop check; none: it never fires). -/
structure BatchEnv where
  itemOracle : Nat → String → Except SummErr String
  finalOracle : String → Except SummErr String
  abortBefore : Option Nat

/-- Whether the signal is aborted when loop iteration i runs. -/
def itemAborted (abortBefore : Option Nat) (i : Nat) : Bool :=
  match abortBefore with
  | none => false
  | some k => decide (k ≤ i)

/-- One iteration of the loop: summarizer.summarize(input, signal,
length) is invoked (the shipped backend is T5Summarizer), and its
rejection is caught into undefined by the attached catch. -/
def runItem (aborted : Bool) (oracle : String → Except SummErr String)
    (input : JSVal) : ItemTrace :=
  ⟨true, (t5SummarizeTrace aborted input).isBackendCall,
    (applyOracle oracle (t5SummarizeTrace aborted input)).toOption⟩

/-- How a batch ended: the early return at the post-loop signal.aborted
check, an uncaught rejection of the final summarize call (no overall
summary), or the displayed overall summary. -/
inductive RunResult
  | cancelled
  | failed (e : SummErr)
  | done (s : String)
deriving DecidableEq, Repr

/-- sidebar.js: summaries.filter(Boolean).join('\n\n') — Boolean keeps
the truthy entries, so undefined gaps and empty strings both drop out. -/
def joinTruthy (summaries : List (Option String)) : String :=
  String.intercalate ("\n\n") ((summaries.filterMap id).filter (fun s => s != ""))

/-- Everything observable about one batch run: the per-item traces, the
length hint the per-item calls carried, the content handed to the final
reduction call (none when it was never issued), the length the final
call ran with (it passes no explicit hint, so T5's default medium; none
when the call was never issued), and how the run ended. -/
structure BatchRun where
  itemTraces : List ItemTrace
  itemLength : LenHint
  reductionInput : Option String
  finalEffectiveLength : Option LenHint
  result : RunResult
deriving DecidableEq, Repr

/-- Completing a batch that reached the final reduction call: the call
ran on content with no explicit length hint (T5's default medium), and
its failure is an uncaught rejection while its value is displayed. -/
def finishBatch (traces : List ItemTrace) (n : Nat) (content : String) :
    Except SummErr String → BatchRun
  | .error e =>
    ⟨traces, summaryLength n, some content, some LenHint.medium, RunResult.failed e⟩
  | .ok s =>
    ⟨traces, summaryLength n, some content, some LenHint.medium, RunResult.done s⟩

/-- The traces the per-item for loop leaves: one per input, in order. -/
def batchTraces (env : BatchEnv) (inputs : List JSVal) : List ItemTrace :=
  (List.range inputs.length).map (fun i =>
    runItem (itemAborted env.abortBefore i) (env.itemOracle i) (inputs.getD i JSVal.undef))

/-- The batch phase of handleSummarize, from the start of the for loop,
given the deduplicated clips' per-item inputs (clip.metadata.content in
the source): sequential per-item calls whose rejections are caught into
gaps; the signal.aborted early return after the loop; then the final
summarize call on the joined truthy summaries, with no length option. -/
def runBatch (env : BatchEnv) (inputs : List JSVal) : BatchRun :=
  if env.abortBefore.isSome then
    ⟨batchTraces env inputs, summaryLength inputs.length, none, none, RunResult.cancelled⟩
  else
    finishBatch (batchTraces env inputs) inputs.length
      (joinTruthy ((batchTraces env inputs).map (fun t => t.summary)))
      (applyOracle env.finalOracle
        (t5SummarizeTrace false
          (JSVal.str (joinTruthy ((batchTraces env inputs).map (fun t => t.summary))))))

/-- The claim's description of the reduction input: the summaries of the
surviving items, gaps skipped, in order. -/
def collectSurviving : List (Option String) → List String
  | [] => []
  | none :: rest => collectSurviving rest
  | some s :: rest => s :: collectSurviving rest

/-- The amended description of the reduction input: the surviving
summaries that are non-empty, in order (filter(Boolean) also drops an
empty string a successful call returned). -/
def collectNonEmpty : List (Option String) → List String
  | [] => []
  | none :: rest => collectNonEmpty rest
  | some s :: rest =>
    if s == "" then collectNonEmpty rest else s :: collectNonEmpty rest

-- #endregion

-- #region Two-tier storage (background.js) and the sidebar's reads

/-- The two chrome.storage areas the coordinator writes: sync (quota
102400 bytes, the lower-capacity tier) and local (the higher-capacity
tier). -/
inductive Tier
  | sync
  | locl
deriving DecidableEq, Repr

/-- The sync tier: the one whose fixed quota (MAX_SYNC_BYTES, the
source's "100KB limit for sync storage") makes it the lower-capacity
tier of the pair. -/
def lowerCapacityTier : Tier := Tier.sync

/-- The state of the two storage areas under the clipai_clips key: none
models an absent key. -/
structure Store where
  sync : Option (List Clip)
  locl : Option (List Clip)
deriving DecidableEq, Repr

/-- Writing the collection under the key of one area. -/
def setTier (st : Store) (t : Tier) (clips : List Clip) : Store :=
  match t with
  | .sync => ⟨some clips, st.locl⟩
  | .locl => ⟨st.sync, some clips⟩

/-- background.js: const MAX_SYNC_BYTES = 102400. -/
def MAX_SYNC_BYTES : Nat := 102400

/-- JSON string escaping as JSON.stringify performs it on the characters
the model meets (quote, backslash and the common control characters). -/
def escapeChar (c : Char) : String :=
  if c = '"' then "\\\""
  else if c = '\\' then "\\\\"
  else if c = '\n' then "\\n"
  else if c = '\r' then "\\r"
  else if c = '\t' then "\\t"
  else String.singleton c

/-- A JSON string literal for s. -/
def jsonString (s : String) : String :=
  "\"" ++ String.join (s.data.map escapeChar) ++ "\""

/-- JSON.stringify of one modelled clip (the fields the model keeps, in
insertion order). -/
def clipJson (c : Clip) : String :=
  "\x7b\"metadata\":\x7b\"url\":" ++ jsonString c.metadata.url
    ++ "\x7d,\"content\":\x7b\"text\":" ++ jsonString c.text
    ++ "\x7d,\"timestamp\":" ++ jsonString c.timestamp ++ "\x7d"

/-- JSON.stringify of the whole collection. -/
def clipsJson (l : List Clip) : String :=
  "[" ++ String.intercalate (",") (l.map clipJson) ++ "]"

/-- background.js saveToStorage's size computation: new
TextEncoder().encode(JSON.stringify(clips)).length, the UTF-8 byte size
of the serialized collection. -/
def serializedSize (l : List Clip) : Nat :=
  (clipsJson l).utf8ByteSize

/-- What one saveToStorage call left behind: the storage state, the
sequence of set() attempts by tier, and whether the call resolved
(false: the fallback write also failed and the rejection propagated). -/
structure SaveTrace where
  store : Store
  attempts : List Tier
  ok : Bool
deriving DecidableEq, Repr

/-- background.js saveToStorage: pick sync when the serialized size is
under MAX_SYNC_BYTES, local otherwise; on any failure in the try block
the catch writes to local, and only that fallback's failure propagates.
writeOk says whether the n-th set() attempt of this call succeeds. -/
def saveToStorage (writeOk : Nat → Bool) (st : Store) (clips : List Clip) : SaveTrace :=
  if writeOk 0 then
    ⟨setTier st (if serializedSize clips < MAX_SYNC_BYTES then Tier.sync else Tier.locl) clips,
      [if serializedSize clips < MAX_SYNC_BYTES then Tier.sync else Tier.locl], true⟩
  else if writeOk 1 then
    ⟨setTier st Tier.locl clips,
      [(if serializedSize clips < MAX_SYNC_BYTES then Tier.sync else Tier.locl), Tier.locl], true⟩
  else
    ⟨st, [(if serializedSize clips < MAX_SYNC_BYTES then Tier.sync else Tier.locl), Tier.locl],
      false⟩

/-- background.js getClips: read sync first and keep its value when the
key holds one (an array, even empty, is truthy), else fall back to local,
else the empty collection. -/
def getClips (st : Store) : List Clip :=
  match st.sync with
  | some v => v
  | none => st.locl.getD []

/-- sidebar.js loadClips: a direct chrome.storage.local read of the
clipai_clips key. -/
def loadClips (st : Store) : List Clip :=
  st.locl.getD []

/-- The background saveClip message handler: read the collection through
getClips, unshift the new clip to the front, write back. -/
def handleSaveClip (writeOk : Nat → Bool) (st : Store) (clip : Clip) : SaveTrace :=
  saveToStorage writeOk st (clip :: getClips st)

/-- An oracle under which every storage write succeeds. -/
def alwaysOk : Nat → Bool := fun _ => true

/-- An oracle under which the first write fails and the fallback
succeeds. -/
def failFirstWrite : Nat → Bool := fun n => decide (0 < n)

-- #endregion

-- #region deleteClip (sidebar.js) with JavaScript findIndex/splice

/-- Array.prototype.findIndex over the timestamps: the index of the
first match, or -1. -/
def jsFindIndexTs (ts : String) (clips : List Clip) : Int :=
  match clips.findIdx? (fun c => c.timestamp == ts) with
  | some i => Int.ofNat i
  | none => -1

/-- Array.prototype.splice(start, 1): a negative start counts from the
end (clamped at 0), a start past the end removes nothing. -/
def jsSpliceRemoveOne (l : List Clip) (start : Int) : List Clip :=
  l.take (if start < 0 then (start + Int.ofNat l.length).toNat
          else min start.toNat l.length)
    ++ l.drop ((if start < 0 then (start + Int.ofNat l.length).toNat
          else min start.toNat l.length) + 1)

/-- sidebar.js deleteClip: clips.splice(clips.findIndex(ts match), 1) —
the -1 of a missed findIndex is handed to splice unchecked. -/
def deleteClip (ts : String) (clips : List Clip) : List Clip :=
  jsSpliceRemoveOne clips (jsFindIndexTs ts clips)

-- #endregion

-- #region Concrete inputs for witnesses and counterexamples

/-- A concrete clip on URL a. -/
def clipA : Clip := ⟨⟨"https://a.example/"⟩, "2024-01-01T00:00:00.000Z", "alpha"⟩

/-- A concrete clip on URL b. -/
def clipB : Clip := ⟨⟨"https://b.example/"⟩, "2024-01-01T00:00:01.000Z", "beta"⟩

/-- A later clip that repeats URL a. -/
def clipA2 : Clip := ⟨⟨"https://a.example/"⟩, "2024-01-01T00:00:02.000Z", "alpha again"⟩

/-- A small clip list with one duplicated URL. -/
def demoClips : List Clip := [clipA, clipA2, clipB]

/-- Item oracle of the partial-failure scenario: item 1 (the second of
four) fails, every other item summarizes to "S" followed by its index. -/
def c2ItemOracle : Nat → String → Except SummErr String := fun i _ =>
  if i == 1 then .error (.backendError ("item failed")) else .ok ("S" ++ toString i)

/-- Final-call oracle of the partial-failure scenario: prefix the joined
content. -/
def c2FinalOracle : String → Except SummErr String := fun c =>
  .ok ("OVERALL " ++ c)

/-- Four concrete per-item inputs. -/
def c2Inputs : List JSVal := [JSVal.str ("w"), JSVal.str ("x"), JSVal.str ("y"), JSVal.str ("z")]

/-- Item oracle whose first item succeeds with the empty string, second
fails, third succeeds with a non-empty summary. -/
def c2CexItemOracle : Nat → String → Except SummErr String := fun i _ =>
  if i == 0 then .ok ("")
  else if i == 1 then .error (.backendError ("item failed"))
  else .ok ("S2")

/-- Three concrete per-item inputs. -/
def c2CexInputs : List JSVal := [JSVal.str ("w"), JSVal.str ("x"), JSVal.str ("y")]

/-- A benign item oracle for the cancellation scenario. -/
def c4ItemOracle : Nat → String → Except SummErr String := fun _ _ => .ok ("s")

/-- A benign final oracle for the cancellation scenario. -/
def c4FinalOracle : String → Except SummErr String := fun _ => .ok ("overall")

/-- Two concrete per-item inputs for the cancellation scenario. -/
def c4Inputs : List JSVal := [JSVal.str ("w"), JSVal.str ("x")]

/-- An item oracle under which every per-item call fails. -/
def c9ItemOracle : Nat → String → Except SummErr String := fun _ _ =>
  .error (.backendError ("always fails"))

/-- A final oracle that would succeed on any payload. -/
def c9FinalOracle : String → Except SummErr String := fun c => .ok ("R " ++ c)

/-- Two concrete per-item inputs for the all-fail scenario. -/
def c9Inputs : List JSVal := [JSVal.str ("w"), JSVal.str ("x")]

-- #endregion

-- #region Theorems

/-- The dedup filter never lengthens the list. -/
theorem dedupFilter_length (l : List Clip) :
    ∀ seen, (dedupFilter seen l).length ≤ l.length := by
  induction l with
  | nil =>
    intro seen
    simp [dedupFilter]
  | cons c rest ih =>
    intro seen
    by_cases h : seen.contains c.metadata.url
    · simp only [dedupFilter, h, if_true, List.length_cons]
      exact Nat.le_succ_of_le (ih seen)
    · simp only [dedupFilter, h, if_false, Bool.false_eq_true, List.length_cons]
      exact Nat.succ_le_succ (ih _)

/-- The filter-with-seen-Set dedup equals the claim's keep-first,
drop-later-duplicates recursion, run on the clips whose URL the Set does
not already hold. -/
theorem dedupFilter_eq_specDedup (l : List Clip) :
    ∀ seen : List String,
      dedupFilter seen l
        = specDedup (l.filter (fun c => !(seen.contains c.metadata.url))) := by
  induction l with
  | nil =>
    intro seen
    simp [dedupFilter, specDedup]
  | cons c rest ih =>
    intro seen
    by_cases h : seen.contains c.metadata.url
    · simp only [dedupFilter, h, if_true, List.filter_cons, Bool.not_true,
        Bool.false_eq_true, if_false]
      exact ih seen
    · have hfilters :
          rest.filter (fun d => !((c.metadata.url :: seen).contains d.metadata.url))
            = (rest.filter (fun d => !(seen.contains d.metadata.url))).filter
                (fun d => d.metadata.url != c.metadata.url) := by
        rw [List.filter_filter]
        apply List.filter_congr
        intro d _
        by_cases hd : d.metadata.url = c.metadata.url
        · simp [List.contains_cons, Bool.not_or, Bool.and_comm, bne, hd]
        · simp [List.contains_cons, Bool.not_or, Bool.and_comm, bne, hd]
      simp only [dedupFilter, h, if_false, Bool.false_eq_true, List.filter_cons,
        Bool.not_false, if_true]
      rw [specDedup, ih (c.metadata.url :: seen), hfilters]

/-- The fields of a finished batch, by case on the final call's
outcome. -/
theorem finishBatch_fields (traces : List ItemTrace) (n : Nat) (content : String)
    (r : Except SummErr String) :
    (finishBatch traces n content r).itemTraces = traces
    ∧ (finishBatch traces n content r).reductionInput = some content
    ∧ (finishBatch traces n content r).finalEffectiveLength = some LenHint.medium
    ∧ (finishBatch traces n content r).itemLength = summaryLength n := by
  cases r <;> exact ⟨rfl, rfl, rfl, rfl⟩

/-- A finished batch whose final call succeeded displays its value. -/
theorem finishBatch_ok (traces : List ItemTrace) (n : Nat) (content : String)
    (s : String) :
    (finishBatch traces n content (Except.ok s)).result = RunResult.done s := rfl

/-- The filter(Boolean) over the summaries computes exactly the
surviving non-empty summaries in order. -/
theorem filter_truthy_eq_collectNonEmpty (ss : List (Option String)) :
    (ss.filterMap id).filter (fun s => s != "") = collectNonEmpty ss := by
  induction ss with
  | nil => rfl
  | cons x t ih =>
    cases x with
    | none => simpa [collectNonEmpty] using ih
    | some s =>
      by_cases hs : s = ""
      · simp [collectNonEmpty, hs, List.filterMap_cons, List.filter_cons, ih]
      · simp [collectNonEmpty, hs, List.filterMap_cons, List.filter_cons, ih]

/-- The joined reduction input is the blank-line join of the surviving
non-empty summaries. -/
theorem joinTruthy_eq_collect (ss : List (Option String)) :
    joinTruthy ss = String.intercalate ("\n\n") (collectNonEmpty ss) := by
  rw [joinTruthy, filter_truthy_eq_collectNonEmpty]

/-- When every summary is a gap, nothing survives. -/
theorem collectNonEmpty_of_all_none (ss : List (Option String))
    (h : ss.all Option.isNone = true) : collectNonEmpty ss = [] := by
  induction ss with
  | nil => rfl
  | cons x t ih =>
    cases x with
    | none =>
      rw [List.all_cons] at h
      simp only [collectNonEmpty]
      exact ih (by simpa using h)
    | some s => simp [List.all_cons, Option.isNone] at h

/-- A loop iteration that runs with the signal already aborted issues its
summarize call, fails fast before the backend, and records a gap —
whatever the input and the oracle are. -/
theorem runItem_aborted (oracle : String → Except SummErr String) (input : JSVal) :
    runItem true oracle input = ⟨true, false, none⟩ := by
  cases input with
  | str s =>
    by_cases h : s.length == 0 <;>
      simp [runItem, t5SummarizeTrace, assertValidInput, h,
        SummarizeTrace.isBackendCall, applyOracle, Except.toOption]
  | num n =>
    simp [runItem, t5SummarizeTrace, assertValidInput,
      SummarizeTrace.isBackendCall, applyOracle, Except.toOption]
  | undef =>
    simp [runItem, t5SummarizeTrace, assertValidInput,
      SummarizeTrace.isBackendCall, applyOracle, Except.toOption]

/-- A string of length zero is the empty string. -/
theorem string_length_eq_zero_iff (s : String) : s.length = 0 ↔ s = "" := by
  constructor
  · intro h
    cases s with
    | mk data =>
      cases data with
      | nil => decide
      | cons c cs => simp [String.length] at h
  · intro h
    subst h
    rfl

/-- The loop leaves one trace per input. -/
theorem batchTraces_length (env : BatchEnv) (inputs : List JSVal) :
    (batchTraces env inputs).length = inputs.length := by
  simp [batchTraces]

/-- Whatever branch the batch takes, its item traces are the loop's. -/
theorem runBatch_itemTraces (env : BatchEnv) (inputs : List JSVal) :
    (runBatch env inputs).itemTraces = batchTraces env inputs := by
  by_cases h : env.abortBefore.isSome
  · simp [runBatch, h]
  · simp [runBatch, h, (finishBatch_fields _ _ _ _).1]

/-- An unaborted batch hands the final call the joined truthy
summaries. -/
theorem runBatch_none_reductionInput (io : Nat → String → Except SummErr String)
    (fo : String → Except SummErr String) (inputs : List JSVal) :
    (runBatch ⟨io, fo, none⟩ inputs).reductionInput
      = some (joinTruthy ((batchTraces ⟨io, fo, none⟩ inputs).map (fun t => t.summary))) := by
  simp [runBatch, (finishBatch_fields _ _ _ _).2.1]

/-- An unaborted batch's final call runs at the default medium length. -/
theorem runBatch_none_finalLength (io : Nat → String → Except SummErr String)
    (fo : String → Except SummErr String) (inputs : List JSVal) :
    (runBatch ⟨io, fo, none⟩ inputs).finalEffectiveLength = some LenHint.medium := by
  simp [runBatch, (finishBatch_fields _ _ _ _).2.2.1]

/-- C3: handleSummarize's dedup-by-URL keeps exactly the first occurrence
per URL in order and drops all later occurrences (it computes the
claim's keep-first recursion), never lengthens the list, and is empty
exactly on the empty input. -/
theorem c3_dedup_invariant (l : List Clip) :
    dedupeByUrl l = specDedup l
    ∧ (dedupeByUrl l).length ≤ l.length
    ∧ (dedupeByUrl l = [] ↔ l = []) := by
  refine ⟨?_, dedupFilter_length l [], ?_⟩
  · have h := dedupFilter_eq_specDedup l []
    simpa [dedupeByUrl] using h
  · cases l with
    | nil => simp [dedupeByUrl, dedupFilter]
    | cons c rest => simp [dedupeByUrl, dedupFilter]

-- #endregion

/-- C2 (amended): with the session's signal never firing, the batch
processes every item (one trace per input; a failing item is caught as a
gap rather than aborting the loop), the final reduction input is the
blank-line join of the surviving non-empty per-item summaries (gaps and
empty summaries skipped), the final call passes no explicit length hint
(it runs at T5's default medium), and when the final call succeeds on
that non-empty joined content the batch completes with its overall
summary. -/
theorem c2_partial_failure_amended (io : Nat → String → Except SummErr String)
    (fo : String → Except SummErr String) (inputs : List JSVal) :
    (runBatch ⟨io, fo, none⟩ inputs).itemTraces.length = inputs.length
    ∧ (runBatch ⟨io, fo, none⟩ inputs).reductionInput
        = some (String.intercalate ("\n\n")
            (collectNonEmpty
              ((runBatch ⟨io, fo, none⟩ inputs).itemTraces.map (fun t => t.summary))))
    ∧ (runBatch ⟨io, fo, none⟩ inputs).finalEffectiveLength = some LenHint.medium
    ∧ (∀ c s, (runBatch ⟨io, fo, none⟩ inputs).reductionInput = some c → c ≠ ""
        → fo c = Except.ok s
        → (runBatch ⟨io, fo, none⟩ inputs).result = RunResult.done s) := by
  refine ⟨?_, ?_, ?_, ?_⟩
  · rw [runBatch_itemTraces, batchTraces_length]
  · rw [runBatch_none_reductionInput, runBatch_itemTraces, joinTruthy_eq_collect]
  · exact runBatch_none_finalLength io fo inputs
  · intro c s h1 hc hok
    rw [runBatch_none_reductionInput] at h1
    have hc2 : joinTruthy ((batchTraces ⟨io, fo, none⟩ inputs).map (fun t => t.summary)) = c :=
      Option.some.inj h1
    have hval : assertValidInput (JSVal.str c) = Except.ok () := by
      have hlen : ¬ c.length = 0 := fun h0 => hc ((string_length_eq_zero_iff c).mp h0)
      simp [assertValidInput, hlen]
    have htr : t5SummarizeTrace false (JSVal.str c) = SummarizeTrace.backendCall c := by
      simp [t5SummarizeTrace, hval, JSVal.asString]
    show (runBatch ⟨io, fo, none⟩ inputs).result = RunResult.done s
    rw [runBatch]
    simp only [Option.isSome_none, Bool.false_eq_true, if_false, hc2, htr]
    show (finishBatch _ _ _ (fo c)).result = RunResult.done s
    rw [hok]
    exact finishBatch_ok _ _ _ _

/-- C2 counterexample: per-item outcomes [ok with the empty string,
failure, ok with "S2"] make the code's reduction input "S2", while the
blank-line join of the surviving summaries, gaps skipped as the claim
states it, is "\n\nS2" — filter(Boolean) also drops the empty summary a
successful call returned. -/
theorem c2_filter_boolean_cex :
    (runBatch ⟨c2CexItemOracle, c2FinalOracle, none⟩ c2CexInputs).reductionInput = some ("S2")
    ∧ String.intercalate ("\n\n")
        (collectSurviving
          ((runBatch ⟨c2CexItemOracle, c2FinalOracle, none⟩ c2CexInputs).itemTraces.map
            (fun t => t.summary))) = "\n\nS2"
    ∧ (decide ((runBatch ⟨c2CexItemOracle, c2FinalOracle, none⟩ c2CexInputs).reductionInput
        = some (String.intercalate ("\n\n")
            (collectSurviving
              ((runBatch ⟨c2CexItemOracle, c2FinalOracle, none⟩ c2CexInputs).itemTraces.map
                (fun t => t.summary)))))) = false := by
  decide

/-- C9: when every per-item summarize call fails, the joined reduction
input is the empty string, so the final summarize call rejects at the
empty-input validation and the batch ends in that failure, not in an
overall summary. -/
theorem c9_all_gaps_reduction_fails (io : Nat → String → Except SummErr String)
    (fo : String → Except SummErr String) (inputs : List JSVal)
    (h : (runBatch ⟨io, fo, none⟩ inputs).itemTraces.all (fun t => t.summary.isNone)
        = true) :
    (runBatch ⟨io, fo, none⟩ inputs).reductionInput = some ("")
    ∧ (runBatch ⟨io, fo, none⟩ inputs).result = RunResult.failed SummErr.emptyInput := by
  rw [runBatch_itemTraces] at h
  have hall : ((batchTraces ⟨io, fo, none⟩ inputs).map (fun t => t.summary)).all
      Option.isNone = true := by
    simpa [List.all_map, Function.comp] using h
  have hempty : joinTruthy ((batchTraces ⟨io, fo, none⟩ inputs).map (fun t => t.summary))
      = "" := by
    rw [joinTruthy_eq_collect, collectNonEmpty_of_all_none _ hall]
    rfl
  constructor
  · rw [runBatch_none_reductionInput, hempty]
  · rw [runBatch]
    simp only [Option.isSome_none, Bool.false_eq_true, if_false, hempty]
    rfl

/-- C9 witness: two concrete items whose calls both fail — the reduction
input evaluates to the empty string and the run ends in the empty-input
validation failure. -/
theorem c9_all_gaps_witness :
    (runBatch ⟨c9ItemOracle, c9FinalOracle, none⟩ c9Inputs).reductionInput = some ("")
    ∧ (runBatch ⟨c9ItemOracle, c9FinalOracle, none⟩ c9Inputs).result
        = RunResult.failed SummErr.emptyInput :=
  c9_all_gaps_reduction_fails c9ItemOracle c9FinalOracle c9Inputs (by decide)

/-- C4 (amended): when the signal fires before loop iteration k, the run
ends as a cancellation (not a generic error) with no reduction call and
no overall summary; the loop still issues a summarize call for every
item — every iteration from k on fails fast before reaching the backend
and is recorded as a gap — while the traces of iterations before k are
exactly those of an unaborted run (partial summaries are not rolled
back). -/
theorem c4_cancellation_amended (io : Nat → String → Except SummErr String)
    (fo : String → Except SummErr String) (inputs : List JSVal) (k : Nat) :
    (runBatch ⟨io, fo, some k⟩ inputs).result = RunResult.cancelled
    ∧ (runBatch ⟨io, fo, some k⟩ inputs).reductionInput = none
    ∧ (runBatch ⟨io, fo, some k⟩ inputs).finalEffectiveLength = none
    ∧ (runBatch ⟨io, fo, some k⟩ inputs).itemTraces.length = inputs.length
    ∧ (∀ i, k ≤ i → (runBatch ⟨io, fo, some k⟩ inputs).itemTraces.get? i
        = if i < inputs.length then some ⟨true, false, none⟩ else none)
    ∧ (∀ i, i < k → (runBatch ⟨io, fo, some k⟩ inputs).itemTraces.get? i
        = (runBatch ⟨io, fo, none⟩ inputs).itemTraces.get? i) := by
  refine ⟨by rw [runBatch]; rfl, by rw [runBatch]; rfl, by rw [runBatch]; rfl,
    by rw [runBatch_itemTraces, batchTraces_length], ?_, ?_⟩
  · intro i hki
    rw [runBatch_itemTraces]
    by_cases hi : i < inputs.length
    · rw [if_pos hi]
      have ha : itemAborted (some k) i = true := decide_eq_true hki
      simp only [batchTraces, List.get?_map, List.get?_range hi, Option.map_some', ha,
        runItem_aborted]
    · rw [if_neg hi]
      exact List.get?_eq_none.mpr (by rw [batchTraces_length]; omega)
  · intro i hik
    rw [runBatch_itemTraces, runBatch_itemTraces]
    by_cases hi : i < inputs.length
    · have h1 : itemAborted (some k) i = false := decide_eq_false (by omega)
      have h2 : itemAborted (none : Option Nat) i = false := rfl
      simp only [batchTraces, List.get?_map, List.get?_range hi, Option.map_some', h1, h2]
    · rw [List.get?_eq_none.mpr (by rw [batchTraces_length]; omega),
        List.get?_eq_none.mpr (by rw [batchTraces_length]; omega)]

/-- C4 counterexample: with two concrete items and the signal fired
before iteration 0, the loop still issues both summarize calls (both
traces are marked called), so it is not so that no further summarize
calls are issued after the signal fires; the run does end as a
cancellation. -/
theorem c4_cancellation_cex :
    ((runBatch ⟨c4ItemOracle, c4FinalOracle, some 0⟩ c4Inputs).itemTraces.map
        (fun t => t.called)) = [true, true]
    ∧ (decide (((runBatch ⟨c4ItemOracle, c4FinalOracle, some 0⟩ c4Inputs).itemTraces.map
        (fun t => t.called)) = [false, false])) = false
    ∧ (runBatch ⟨c4ItemOracle, c4FinalOracle, some 0⟩ c4Inputs).result
        = RunResult.cancelled := by
  decide

/-- C1: with the shipped preference list [T5Summarizer], createSummarizer
evaluates summarizerClass.isAvailable() on a class whose isAvailable is a
static getter, so the call throws a TypeError outside the try block and
the selection loop never probes availability, creates a backend, or
reaches the no-summarizer error — whatever the getter's value and the
would-be create() outcome are. -/
theorem c1_selection_throws_on_shipped_list (pipelineIsFn : Bool)
    (t5Create : Except SummErr Backend) :
    createSummarizer (shippedSummarizers pipelineIsFn t5Create) =
      Except.error SummErr.notAFunction := rfl

/-- C8: T5Summarizer, the one shipped backend, declares no destroy()
method, so summarizer.destroy() on its instance throws a TypeError (with
or without an underlying pipeline); the two classes that do declare it
guard on the private field, so their destroy is safe when creation left
no underlying handle. -/
theorem c8_t5_destroy_missing :
    callDestroy Backend.t5 false = Except.error SummErr.notAFunction
    ∧ callDestroy Backend.t5 true = Except.error SummErr.notAFunction
    ∧ callDestroy Backend.promptApi false = Except.ok DestroyAction.skipped
    ∧ callDestroy Backend.native false = Except.ok DestroyAction.skipped := by
  decide

/-- C6: sequential saves do prepend (saving clipA then clipB stores
[clipB, clipA]), but deleting by a timestamp that matches no record does
not remove nothing: findIndex returns -1 and splice(-1, 1) removes the
last record, so deleteClip of an unmatched timestamp on [clipA, clipB]
yields [clipA]. -/
theorem c6_delete_by_timestamp_bug :
    getClips (handleSaveClip alwaysOk (handleSaveClip alwaysOk ⟨none, none⟩ clipA).store
        clipB).store = [clipB, clipA]
    ∧ deleteClip ("2030-01-01T00:00:00.000Z") [clipA, clipB] = [clipA]
    ∧ (decide (deleteClip ("2030-01-01T00:00:00.000Z") [clipA, clipB] = [clipA, clipB]))
        = false := by
  decide

/-- C5: on every backend variant (the prompt-API and native instances as
create builds them, with their underlying session/summarizer present,
and T5), summarize with the empty string fails with the empty-input
validation error and summarize with a number fails with the TypeError,
both before any backend call is attempted; a non-empty string passes the
validation. -/
theorem c5_input_validation (n : Int) (s : String) :
    promptApiSummarizeTrace true (JSVal.str (""))
        = SummarizeTrace.failedBeforeBackend SummErr.emptyInput
    ∧ promptApiSummarizeTrace true (JSVal.num n)
        = SummarizeTrace.failedBeforeBackend
            (SummErr.typeError ("Input must be a string. Received number"))
    ∧ nativeSummarizeTrace true false (JSVal.str (""))
        = SummarizeTrace.failedBeforeBackend SummErr.emptyInput
    ∧ nativeSummarizeTrace true false (JSVal.num n)
        = SummarizeTrace.failedBeforeBackend
            (SummErr.typeError ("Input must be a string. Received number"))
    ∧ t5SummarizeTrace false (JSVal.str (""))
        = SummarizeTrace.failedBeforeBackend SummErr.emptyInput
    ∧ t5SummarizeTrace false (JSVal.num n)
        = SummarizeTrace.failedBeforeBackend
            (SummErr.typeError ("Input must be a string. Received number"))
    ∧ (s ≠ "" → assertValidInput (JSVal.str s) = Except.ok ()) := by
  refine ⟨rfl, rfl, rfl, rfl, rfl, rfl, ?_⟩
  intro hs
  have hlen : ¬ s.length = 0 := fun h0 => hs ((string_length_eq_zero_iff s).mp h0)
  simp [assertValidInput, hlen]

/-- C7 (amended): every save serializes the collection and compares its
UTF-8 byte size against the fixed 102400-byte threshold — under it the
first write goes to sync, at or above it to local; when the first write
fails the fallback write goes to local (the higher-capacity tier,
whichever tier just failed), and the save rejects only when that
fallback also fails. -/
theorem c7_storage_tiering_amended (writeOk : Nat → Bool) (st : Store)
    (clips : List Clip) :
    (saveToStorage writeOk st clips).attempts.head?
      = some (if serializedSize clips < MAX_SYNC_BYTES then Tier.sync else Tier.locl)
    ∧ (writeOk 0 = false → (saveToStorage writeOk st clips).attempts
        = [(if serializedSize clips < MAX_SYNC_BYTES then Tier.sync else Tier.locl),
            Tier.locl])
    ∧ (writeOk 0 = true → (saveToStorage writeOk st clips).attempts
        = [(if serializedSize clips < MAX_SYNC_BYTES then Tier.sync else Tier.locl)])
    ∧ (saveToStorage writeOk st clips).ok = (writeOk 0 || writeOk 1) := by
  cases h0 : writeOk 0 <;> cases h1 : writeOk 1 <;>
    simp [saveToStorage, h0, h1]

/-- C10: a collection whose serialized size is under the threshold is
saved, without error, to the sync tier; the sidebar's loadClips keeps
reading only the local tier, so it returns whatever local held before
and not the saved clips, while the coordinator's getClips (sync first)
returns them. -/
theorem c10_tier_mismatch (st : Store) (clips : List Clip)
    (h : serializedSize clips < MAX_SYNC_BYTES) :
    loadClips (saveToStorage alwaysOk st clips).store = st.locl.getD []
    ∧ getClips (saveToStorage alwaysOk st clips).store = clips
    ∧ (saveToStorage alwaysOk st clips).ok = true := by
  refine ⟨?_, ?_, rfl⟩ <;>
    simp [saveToStorage, alwaysOk, h, setTier, loadClips, getClips]

/-- C10 witness: saving one small clip into empty storage — loadClips
still reads the empty local tier while getClips returns the clip. -/
theorem c10_tier_mismatch_witness :
    loadClips (saveToStorage alwaysOk ⟨none, none⟩ [clipA]).store = []
    ∧ getClips (saveToStorage alwaysOk ⟨none, none⟩ [clipA]).store = [clipA] := by
  have h := c10_tier_mismatch ⟨none, none⟩ [clipA] (by decide)
  exact ⟨by rw [h.1]; rfl, h.2.1⟩

/-- C7 counterexample: on the empty collection (serialized size 2 bytes,
under the threshold) with the first write failing, the fallback attempt
goes to the local tier, which is not the lower-capacity tier — the claim
says the fallback write goes to the lower-capacity tier. -/
theorem c7_fallback_tier_cex :
    (saveToStorage failFirstWrite ⟨none, none⟩ []).attempts = [Tier.sync, Tier.locl]
    ∧ (saveToStorage failFirstWrite ⟨none, none⟩ []).attempts.getD 1 Tier.sync = Tier.locl
    ∧ (decide ((saveToStorage failFirstWrite ⟨none, none⟩ []).attempts.getD 1 Tier.sync
        = lowerCapacityTier)) = false := by
  decide

-- #endregion
